import Mathlib

/-!
Verification of the STServer storytelling backend against its
natural-language specification.  The Python source under `app/` is shallowly
embedded: pure helpers become Lean functions, Firestore becomes a functional
map from document ids to documents, and each external SDK call (Replicate,
PIL, the storage bucket) is modelled by an environment record whose fields
give the call's outcome, so the control flow around those calls is translated
verbatim from the source.
-/

namespace STServer

/-! ## app/utils/helpers.py

`calculate_audio_duration` runs in CPython floats (IEEE-754 binary64), so
the result of `int(len(text)/5/150*60*1000)` is `80*len - 1` for many
lengths (559 at length 7, 8159 at length 102).  The model therefore rounds
after every operation exactly as binary64 does.  Every non-negative
binary64 value is a dyadic number `m * 2^e` (`FloatVal`); each
division/multiplication computes its exact rational result and rounds it
to 53 significant bits, to nearest, ties to even, over the integers.  The
exponent is unbounded: the first divergence from binary64 (overflow,
where CPython's `len(text)/5` would raise `OverflowError`) needs a text of
more than `5 * 2^1023` characters, and no intermediate value here can be
subnormal (for length ≥ 1 every intermediate is ≥ 1/750). -/

/-- Fuel-driven `⌊log2 n⌋` (0 for `n = 0`), structurally recursive so it
reduces in the kernel. -/
def log2fuel : ℕ → ℕ → ℕ
  | 0, _ => 0
  | fuel + 1, n => if n < 2 then 0 else log2fuel fuel (n / 2) + 1

/-- `⌊log2 n⌋` for `n ≥ 1`. -/
def natLog2 (n : ℕ) : ℕ := log2fuel n n

/-- `⌊log2 (a / b)⌋` for `a, b ≥ 1`: the bit-length difference `k` of `a`
and `b` satisfies `2^(k-1) < a/b < 2^(k+1)`, and one comparison of
`a / b` with `2^k` (cleared of denominators) fixes the floor. -/
def ratLog2FloorN (a b : ℕ) : ℤ :=
  let k : ℤ := (natLog2 a : ℤ) - (natLog2 b : ℤ)
  let twoPowLE : Bool :=
    if 0 ≤ k then decide (b * 2 ^ k.toNat ≤ a) else decide (b ≤ a * 2 ^ (-k).toNat)
  if twoPowLE then k else k - 1

/-- A non-negative binary64 value `m * 2^e` (unbounded exponent). -/
structure FloatVal where
  m : ℕ
  e : ℤ
deriving Repr, DecidableEq

/-- Round the exact rational `a / b` (`a, b : ℕ`) to 53 significant bits,
to nearest, ties to even: pick the exponent `n` that scales `a / b` into
`[2^52, 2^53)`, split `a / (b * 2^n)` into quotient and remainder over the
integers, and round the quotient on the remainder (ties to the even
quotient).  This is exactly CPython's correctly-rounded `int / int` true
division; float arguments are dyadic, so the other operations reduce to it
too. -/
def roundRatF (a b : ℕ) : FloatVal :=
  if a = 0 then ⟨0, 0⟩
  else
    let n : ℤ := ratLog2FloorN a b - 52
    let num : ℕ := if 0 ≤ n then a else a * 2 ^ (-n).toNat
    let den : ℕ := if 0 ≤ n then b * 2 ^ n.toNat else b
    let m0 : ℕ := num / den
    let r2 : ℕ := 2 * (num % den)
    let m : ℕ :=
      if r2 < den then m0
      else if den < r2 then m0 + 1
      else if m0 % 2 = 0 then m0 else m0 + 1
    ⟨m, n⟩

/-- CPython float division by a (non-zero, exactly representable) integer:
the exact value `(m * 2^e) / d` is correctly rounded. -/
def floatDivNat (x : FloatVal) (d : ℕ) : FloatVal :=
  if 0 ≤ x.e then roundRatF (x.m * 2 ^ x.e.toNat) d
  else roundRatF x.m (d * 2 ^ (-x.e).toNat)

/-- CPython float multiplication by an (exactly representable) integer:
the exact product `(m * k) * 2^e` is correctly rounded. -/
def floatMulNat (x : FloatVal) (k : ℕ) : FloatVal :=
  let r := roundRatF (x.m * k) 1
  ⟨r.m, r.e + x.e⟩

/-- CPython `int(...)` of a non-negative float: truncation. -/
def floatTrunc (x : FloatVal) : ℕ :=
  if 0 ≤ x.e then x.m * 2 ^ x.e.toNat else x.m / 2 ^ (-x.e).toNat

/-- Translation of `calculate_audio_duration` (app/utils/helpers.py):
`words = len(text) / 5` (int/int true division, correctly rounded),
`duration_minutes = words / 150`, `return int(duration_minutes * 60 *
1000)` (`*` is left-associative, so `(dm * 60) * 1000`), every operation
evaluated in binary64. -/
def calculate_audio_duration (text : String) : ℤ :=
  (floatTrunc (floatMulNat (floatMulNat
    (floatDivNat (roundRatF text.length 5) 150) 60) 1000) : ℤ)

theorem calculate_audio_duration_nonneg (text : String) :
    0 ≤ calculate_audio_duration text :=
  Int.natCast_nonneg _

/-- The model reproduces CPython's float outputs, including the lengths
where they differ from `80 * len`: a 7-character text is estimated at
559 ms (exact rational evaluation would give 560) and a 102-character one
at 8159 ms. -/
theorem calculate_audio_duration_float_values :
    calculate_audio_duration "abcdefg" = 559
    ∧ calculate_audio_duration "ab" = 160
    ∧ (String.mk (List.replicate 102 'a')).length = 102
    ∧ calculate_audio_duration (String.mk (List.replicate 102 'a')) = 8159 := by
  refine ⟨by decide, by decide, by decide, by decide⟩

/-! ## Scene timing (app/routers/stories.py, `generate_story_background`)

The background task receives the processed scenes paired with
`calculate_audio_duration(scene.text)`, then runs
`current_time = 0; for ...: scene.start_time = current_time;
current_time += duration`, and builds each `scene_data` dictionary with
`"start_time": scene.start_time` and
`"duration": calculate_audio_duration(scene.text)`. -/

structure StoryScene where
  scene_number : ℕ
  text : String
  visual_prompt : String
deriving Repr, DecidableEq

structure SceneData where
  scene_number : ℕ
  text : String
  start_time : ℤ
  duration : ℤ
deriving Repr, DecidableEq

/-- The timing loop of `generate_story_background`, with `t` the running
`current_time` accumulator. -/
def buildScenesData (t : ℤ) : List StoryScene → List SceneData
  | [] => []
  | s :: rest =>
      { scene_number := s.scene_number
        text := s.text
        start_time := t
        duration := calculate_audio_duration s.text }
        :: buildScenesData (t + calculate_audio_duration s.text) rest

/-- The `scenes` array of the final manifest (`current_time` starts at 0). -/
def scenesData (scenes : List StoryScene) : List SceneData :=
  buildScenesData 0 scenes

/-- Sum of the estimated durations of a list of scenes. -/
def durSum (scenes : List StoryScene) : ℤ :=
  (scenes.map (fun s => calculate_audio_duration s.text)).sum

theorem buildScenesData_length (t : ℤ) (scenes : List StoryScene) :
    (buildScenesData t scenes).length = scenes.length := by
  induction scenes generalizing t with
  | nil => rfl
  | cons s rest ih => simp [buildScenesData, ih]

theorem buildScenesData_get_start (scenes : List StoryScene) (t : ℤ) (i : ℕ)
    (h : i < (buildScenesData t scenes).length) :
    ((buildScenesData t scenes).get ⟨i, h⟩).start_time = t + durSum (scenes.take i) := by
  induction scenes generalizing t i with
  | nil => simp [buildScenesData] at h
  | cons s rest ih =>
      cases i with
      | zero => simp [buildScenesData, durSum]
      | succ j =>
          simp only [buildScenesData, List.get_cons_succ, List.take_succ_cons]
          rw [ih]
          simp [durSum]
          ring

theorem buildScenesData_get_duration (scenes : List StoryScene) (t : ℤ) (i : ℕ)
    (h : i < (buildScenesData t scenes).length)
    (h' : i < scenes.length) :
    ((buildScenesData t scenes).get ⟨i, h⟩).duration
      = calculate_audio_duration (scenes.get ⟨i, h'⟩).text := by
  induction scenes generalizing t i with
  | nil => simp [buildScenesData] at h
  | cons s rest ih =>
      cases i with
      | zero => simp [buildScenesData]
      | succ j =>
          simp only [buildScenesData, List.get_cons_succ]
          exact ih (t + calculate_audio_duration s.text) j _ (Nat.lt_of_succ_lt_succ h')

/-- C3: for every completed story the first scene's start_time is 0,
`start_time[i+1] = start_time[i] + duration[i]`, the duration of scene i is
`calculate_audio_duration` of scene i's text (the character-count formula,
truncated to an integer), and start times are non-decreasing. -/
theorem scene_timing_correct (scenes : List StoryScene) :
    (scenesData scenes).length = scenes.length
    ∧ (∀ h : 0 < (scenesData scenes).length,
        ((scenesData scenes).get ⟨0, h⟩).start_time = 0)
    ∧ (∀ i (h : i + 1 < (scenesData scenes).length) (h' : i < (scenesData scenes).length),
        ((scenesData scenes).get ⟨i + 1, h⟩).start_time
          = ((scenesData scenes).get ⟨i, h'⟩).start_time
            + ((scenesData scenes).get ⟨i, h'⟩).duration)
    ∧ (∀ i (h : i < (scenesData scenes).length) (h' : i < scenes.length),
        ((scenesData scenes).get ⟨i, h⟩).duration
          = calculate_audio_duration (scenes.get ⟨i, h'⟩).text)
    ∧ (∀ i j (hi : i < (scenesData scenes).length) (hj : j < (scenesData scenes).length),
        i ≤ j →
        ((scenesData scenes).get ⟨i, hi⟩).start_time
          ≤ ((scenesData scenes).get ⟨j, hj⟩).start_time) := by
  have hlen := buildScenesData_length 0 scenes
  refine ⟨hlen, ?_, ?_, ?_, ?_⟩
  · intro h
    simp only [scenesData]
    rw [buildScenesData_get_start]
    simp [durSum]
  · intro i h h'
    have hi' : i < scenes.length := by rw [← hlen]; exact h'
    have hb' : i < (buildScenesData 0 scenes).length := h'
    simp only [scenesData]
    rw [buildScenesData_get_start, buildScenesData_get_start,
      buildScenesData_get_duration scenes 0 i hb' hi']
    have htake : scenes.take (i + 1) = scenes.take i ++ [scenes.get ⟨i, hi'⟩] := by
      rw [List.take_succ, List.getElem?_eq_getElem hi']
      simp
    rw [htake]
    have hsum : durSum (scenes.take i ++ [scenes.get ⟨i, hi'⟩])
        = durSum (scenes.take i) + calculate_audio_duration (scenes.get ⟨i, hi'⟩).text := by
      unfold durSum
      rw [List.map_append, List.sum_append, List.map_singleton, List.sum_singleton]
    rw [hsum]
    ring
  · intro i h h'
    exact buildScenesData_get_duration scenes 0 i h h'
  · intro i j hi hj hij
    simp only [scenesData]
    rw [buildScenesData_get_start, buildScenesData_get_start]
    have hmono : durSum (scenes.take i) ≤ durSum (scenes.take j) := by
      have hpre : scenes.take i <+: scenes.take j := List.take_prefix_take_left _ hij
      obtain ⟨tail, htail⟩ := hpre
      rw [← htail]
      have : durSum (scenes.take i ++ tail) = durSum (scenes.take i) + durSum tail := by
        simp [durSum]
      rw [this]
      have : 0 ≤ durSum tail := by
        unfold durSum
        apply List.sum_nonneg
        intro x hx
        obtain ⟨s, _, rfl⟩ := List.mem_map.mp hx
        exact calculate_audio_duration_nonneg _
      linarith
    linarith

/-- Witness for `scene_timing_correct` at a concrete two-scene story. -/
theorem scene_timing_correct_witness :
    ((scenesData [⟨1, "Once upon a time", "a castle"⟩, ⟨2, "The end", "a sunset"⟩]).get
        ⟨1, by decide⟩).start_time
      = ((scenesData [⟨1, "Once upon a time", "a castle"⟩, ⟨2, "The end", "a sunset"⟩]).get
        ⟨0, by decide⟩).start_time
        + ((scenesData [⟨1, "Once upon a time", "a castle"⟩, ⟨2, "The end", "a sunset"⟩]).get
        ⟨0, by decide⟩).duration :=
  (scene_timing_correct _).2.2.1 0 (by decide) (by decide)

/-! ## app/routers/stories.py, `parse_dimensions`

`parse_dimensions` does `width, height = dimensions_str.split('x')` then
`(int(width), int(height))`, and under `except:` returns `(1200, 2600)`.
`pyInt` models Python's `int(str)`: surrounding ASCII whitespace is stripped,
an optional sign is allowed, and the digits may contain single underscores
between digits (Python 3.6+ grouping). -/

/-- Characters stripped by Python's `str.strip()` (ASCII subset). -/
def pyWhitespace : List Char := [' ', '\t', '\n', '\r', Char.ofNat 11, Char.ofNat 12]

/-- Strip leading and trailing whitespace from a character list. -/
def stripWS (l : List Char) : List Char :=
  ((l.dropWhile (fun c => c ∈ pyWhitespace)).reverse.dropWhile
    (fun c => c ∈ pyWhitespace)).reverse

/-- Digit-sequence parser: digits with single underscores allowed between
digits; the accumulator builds the value.  The input's head has already been
checked to be a digit. -/
def digitsCore (acc : ℕ) : List Char → Option ℕ
  | [] => some acc
  | c :: rest =>
      if c.isDigit then digitsCore (acc * 10 + (c.toNat - '0'.toNat)) rest
      else if c = '_' then
        match rest with
        | [] => none
        | d :: _ => if d.isDigit then digitsCore acc rest else none
      else none

/-- Parse an unsigned decimal literal as Python's `int` accepts it. -/
def parsePyNat : List Char → Option ℕ
  | [] => none
  | c :: rest => if c.isDigit then digitsCore 0 (c :: rest) else none

/-- Python's `int(s)` for decimal strings. -/
def pyInt (l : List Char) : Option ℤ :=
  match stripWS l with
  | '+' :: rest => (parsePyNat rest).map Int.ofNat
  | '-' :: rest => (parsePyNat rest).map (fun n => -(n : ℤ))
  | l' => (parsePyNat l').map Int.ofNat

/-- Python's `str.split(sep)` for a one-character separator, over character
lists (`''.split('x') == ['']`, `'ax'.split('x') == ['a', '']`). -/
def splitOnChar (sep : Char) : List Char → List (List Char)
  | [] => [[]]
  | c :: rest =>
      if c = sep then [] :: splitOnChar sep rest
      else
        match splitOnChar sep rest with
        | [] => [[c]]
        | p :: ps => (c :: p) :: ps

/-- Translation of `parse_dimensions` (app/routers/stories.py): tuple
unpacking of `split('x')` succeeds only with exactly two parts; any failure
(unpacking or `int()`) lands in the bare `except:` returning the portrait
default `(1200, 2600)`. -/
def parse_dimensions (dimensions_str : String) : ℤ × ℤ :=
  match splitOnChar 'x' dimensions_str.toList with
  | [w, h] =>
      match pyInt w, pyInt h with
      | some wi, some hi => (wi, hi)
      | _, _ => (1200, 2600)
  | _ => (1200, 2600)

/-- The proposition that a dimensions string parses as an integer width and
height separated by a single `x`. -/
def DimsParse (s : String) (w h : ℤ) : Prop :=
  ∃ ws hs, splitOnChar 'x' s.toList = [ws, hs] ∧ pyInt ws = some w ∧ pyInt hs = some h

/-- C8: `"932x430"` parses to `(932, 430)`, and every string that does not
parse as an integer width and height separated by `x` (such as `"garbage"`)
yields the documented default `(1200, 2600)`; the function is total, so it
never raises. -/
theorem parse_dimensions_correct :
    parse_dimensions "932x430" = (932, 430)
    ∧ parse_dimensions "garbage" = (1200, 2600)
    ∧ ∀ s : String, (∀ w h, ¬ DimsParse s w h) → parse_dimensions s = (1200, 2600) := by
  refine ⟨by decide, by decide, ?_⟩
  intro s hnp
  unfold parse_dimensions
  cases hsplit : splitOnChar 'x' s.toList with
  | nil => rfl
  | cons a tl =>
      cases tl with
      | nil => rfl
      | cons b tl2 =>
          cases tl2 with
          | nil =>
              cases hw : pyInt a with
              | none => simp [hw]
              | some wi =>
                  cases hh : pyInt b with
                  | none => simp [hw, hh]
                  | some hi =>
                      exact absurd ⟨a, b, hsplit, hw, hh⟩ (hnp wi hi)
          | cons c tl3 => rfl

/-- Witness for `parse_dimensions_correct`: the universally quantified
fallback clause applied at the concrete non-parsing input `"garbage"`. -/
theorem parse_dimensions_correct_witness :
    parse_dimensions "garbage" = (1200, 2600) := by
  refine parse_dimensions_correct.2.2 "garbage" ?_
  intro w h hp
  obtain ⟨ws, hs, hsplit, _, _⟩ := hp
  have hlen : (splitOnChar 'x' "garbage".toList).length = 1 := by decide
  rw [hsplit] at hlen
  simp at hlen

/-! ## app/services/media_service.py, `generate_image_batch`

Each scene item runs `create_image`: a `for attempt in range(3)` loop around
`replicate.run`, retrying (after `time.sleep(10)`) only when the raised
message contains `"CUDA out of memory"` and `attempt < max_retries - 1`;
any other exception, or the third CUDA failure, is re-raised.  On a
successful run the first output URL is downloaded, resized and JPEG-encoded
(external work, modelled by the `process` field).  The batch gathers all
items with `return_exceptions=True`, then walks the results in input order
and RE-RAISES the first exception; an overall 240 s timeout raises
`HTTPException(500, "Image generation timed out")`.  The environment record
`ImageItemEnv` supplies each external call's outcome. -/

/-- Bool test for `pat` occurring inside `l` (Python's `in` on strings). -/
def containsSubList (pat : List Char) : List Char → Bool
  | [] => pat.isEmpty
  | c :: rest => pat.isPrefixOf (c :: rest) || containsSubList pat rest

/-- Python's `pat in haystack` substring test. -/
def strContains (haystack pat : String) : Bool :=
  containsSubList pat.toList haystack.toList

/-- The `"CUDA out of memory" in str(e)` test of `generate_image_batch`. -/
def cudaOOM (msg : String) : Bool :=
  strContains msg "CUDA out of memory"

/-- Outcomes of the external calls made for one image item:
`runAttempt n` is what `replicate.run` does on the n-th attempt (ok = the
list of output URLs, error = the exception message), `process u` is the
download + resize + JPEG-encode of URL `u`. -/
structure ImageItemEnv where
  runAttempt : ℕ → Except String (List String)
  process : String → Except String (List ℕ)

/-- The retry loop of `create_image`: `attempt` is the current index,
`fuel` the number of attempts still available after this one
(`max_retries - 1 - attempt`).  The second component counts the seconds
slept (`time.sleep(10)` before each retry). -/
def retryRun (env : ImageItemEnv) (attempt : ℕ) : ℕ → Except String (List String) × ℕ
  | 0 =>
      match env.runAttempt attempt with
      | .ok out => (.ok out, 0)
      | .error e => (.error e, 0)
  | fuel + 1 =>
      match env.runAttempt attempt with
      | .ok out => (.ok out, 0)
      | .error e =>
          if cudaOOM e = true ∧ attempt < 2 then
            let r := retryRun env (attempt + 1) fuel
            (r.1, r.2 + 10)
          else (.error e, 0)

/-- `create_image` for one scene: run with retries, then require a nonempty
URL list (`if output and len(output) > 0` else raise), then download,
resize to 304x304 and re-encode as JPEG.  No placeholder is substituted
anywhere: every failure is an `error` value. -/
def create_image (env : ImageItemEnv) : Except String (List ℕ) × ℕ :=
  match retryRun env 0 2 with
  | (.error e, s) => (.error e, s)
  | (.ok urls, s) =>
      match urls with
      | [] => (.error "No output generated from Replicate", s)
      | u :: _ => (env.process u, s)

/-- Error raised out of `generate_image_batch`: either the first failed
item's exception re-raised, or the overall-timeout `HTTPException`. -/
inductive BatchError where
  | fromItem (msg : String)
  | timeout (status_code : ℕ) (detail : String)
deriving Repr, DecidableEq

/-- The result-collection loop of `generate_image_batch`: walk the gathered
results in input order, re-raising the first exception, otherwise
collecting every byte-string. -/
def collectOrRaise : List (Except String (List ℕ)) → Except BatchError (List (List ℕ))
  | [] => .ok []
  | .error e :: _ => .error (.fromItem e)
  | .ok b :: rest => (collectOrRaise rest).map (fun l => b :: l)

/-- Translation of `MediaService.generate_image_batch`: gather every item's
`create_image` result (input order is preserved by `asyncio.gather`), then
collect or re-raise; `timedOut` models the 240 s `asyncio.wait_for` limit
elapsing, which raises `HTTPException(500, ...)`. -/
def generate_image_batch (items : List ImageItemEnv) (timedOut : Bool) :
    Except BatchError (List (List ℕ)) :=
  if timedOut then .error (.timeout 500 "Image generation timed out")
  else collectOrRaise (items.map (fun it => (create_image it).1))

theorem collectOrRaise_map_ok (bs : List (List ℕ)) :
    collectOrRaise (bs.map Except.ok) = .ok bs := by
  induction bs with
  | nil => rfl
  | cons b rest ih => simp [collectOrRaise, ih, Except.map]

/-- One image item whose provider call fails with a generic (non-GPU)
download error on every attempt. -/
def imgFailDownloadEnv : ImageItemEnv :=
  { runAttempt := fun _ => .error "Failed to download image: HTTP 500"
    process := fun _ => .ok [] }

/-- One image item whose provider call fails with a GPU-memory error on
every attempt. -/
def imgCudaEnv : ImageItemEnv :=
  { runAttempt := fun _ => .error "CUDA out of memory"
    process := fun _ => .ok [] }

/-- One image item that fails once with a GPU-memory error and then
succeeds. -/
def imgRetrySuccessEnv : ImageItemEnv :=
  { runAttempt := fun n => if n = 0 then .error "CUDA out of memory" else .ok ["u1"]
    process := fun _ => .ok [9, 9] }

/-- C1 counterexample: a batch of one prompt in which the single item fails
raises the failure instead of returning a one-element list of placeholder
bytes, so the batch operation is NOT never-raising. -/
theorem image_batch_total_failure_raises :
    generate_image_batch [imgFailDownloadEnv] false
      = .error (.fromItem "Failed to download image: HTTP 500") := by
  rfl

/-- C1 amended: when every item synthesizes successfully, the batch returns
exactly one byte-string per input prompt, in input order; a failed item or
an overall timeout instead raises (shown by
`image_batch_total_failure_raises`). -/
theorem image_batch_ok_shape (items : List ImageItemEnv) (bs : List (List ℕ))
    (h : items.map (fun it => (create_image it).1) = bs.map Except.ok) :
    generate_image_batch items false = .ok bs ∧ bs.length = items.length := by
  constructor
  · unfold generate_image_batch
    simp only [Bool.false_eq_true, if_false]
    rw [h]
    exact collectOrRaise_map_ok bs
  · have hlen := congrArg List.length h
    simpa using hlen.symm

/-- Witness for `image_batch_ok_shape` on a concrete one-item batch. -/
theorem image_batch_ok_shape_witness :
    generate_image_batch [imgRetrySuccessEnv] false = .ok [[9, 9]]
      ∧ [[9, 9]].length = [imgRetrySuccessEnv].length :=
  image_batch_ok_shape [imgRetrySuccessEnv] [[9, 9]] (by rfl)

/-- C9 counterexample: an item failing with GPU-memory errors on all three
attempts has its failure re-raised out of the batch (after two 10 s
backoffs) — no placeholder is substituted. -/
theorem image_retry_exhaustion_propagates :
    create_image imgCudaEnv = (.error "CUDA out of memory", 20)
    ∧ generate_image_batch [imgCudaEnv] false = .error (.fromItem "CUDA out of memory") := by
  constructor <;> rfl

/-- C9 amended: the per-item retry loop retries only GPU-memory
(`"CUDA out of memory"`) failures, sleeping a fixed 10 seconds before each
retry, for at most 3 attempts; a non-GPU error is raised immediately with
no retry and no backoff; after the third GPU-memory failure the error is
raised (and propagates out of the batch). -/
theorem image_retry_policy :
    (∀ (env : ImageItemEnv) (m : String),
      env.runAttempt 0 = .error m → cudaOOM m = false →
      create_image env = (.error m, 0))
    ∧ (∀ (env : ImageItemEnv) (m0 u : String) (rest : List String) (b : List ℕ),
      env.runAttempt 0 = .error m0 → cudaOOM m0 = true →
      env.runAttempt 1 = .ok (u :: rest) → env.process u = .ok b →
      create_image env = (.ok b, 10))
    ∧ (∀ (env : ImageItemEnv) (m0 m1 m2 : String),
      env.runAttempt 0 = .error m0 → env.runAttempt 1 = .error m1 →
      env.runAttempt 2 = .error m2 → cudaOOM m0 = true → cudaOOM m1 = true →
      create_image env = (.error m2, 20)) := by
  refine ⟨?_, ?_, ?_⟩
  · intro env m h0 hc
    simp [create_image, retryRun, h0, hc]
  · intro env m0 u rest b h0 hc h1 hp
    simp [create_image, retryRun, h0, hc, h1, hp]
  · intro env m0 m1 m2 h0 h1 h2 hc0 hc1
    simp [create_image, retryRun, h0, h1, h2, hc0, hc1]

/-- Witness for `image_retry_policy`: each clause applied at a concrete
item environment. -/
theorem image_retry_policy_witness :
    create_image imgFailDownloadEnv = (.error "Failed to download image: HTTP 500", 0)
    ∧ create_image imgRetrySuccessEnv = (.ok [9, 9], 10)
    ∧ create_image imgCudaEnv = (.error "CUDA out of memory", 20) :=
  ⟨image_retry_policy.1 imgFailDownloadEnv _ rfl rfl,
   image_retry_policy.2.1 imgRetrySuccessEnv _ "u1" [] [9, 9] rfl rfl rfl rfl,
   image_retry_policy.2.2 imgCudaEnv _ _ _ rfl rfl rfl rfl rfl⟩

/-! ## app/services/storage_service.py — media uploads

`upload_audio` builds `stories/{id}/audio/scene_{n}.wav`, uploads, calls
`blob.make_public()`, then verifies `blob.exists()` before returning
`blob.public_url`; every exception is wrapped into
`HTTPException(500, "Audio upload failed for scene {n}: ...")`.
`upload_image_data` additionally guards `len(image_data) < 1000` BEFORE
creating the blob, raising `"Image data too small: {len} bytes"`; its
wrapper message is `"Grayscale image upload failed for scene {n}: ..."`.
`upload_audio` has NO minimum-size guard.  The external bucket write is
modelled by `UploadEnv`. -/

abbrev Bytes := List ℕ

structure HTTPError where
  status_code : ℕ
  detail : String
deriving Repr, DecidableEq

structure Blob where
  data : Bytes
  contentType : String
  isPublic : Bool
deriving Repr, DecidableEq

structure Bucket where
  name : String
  blobs : String → Option Blob

/-- `settings.audio_format` (app/config.py). -/
def settings_audio_format : String := "wav"

def Bucket.insertBlob (b : Bucket) (filename : String) (blob : Blob) : Bucket :=
  { b with blobs := fun k => if k = filename then some blob else b.blobs k }

/-- `blob.public_url` for a public object of this bucket. -/
def public_url (b : Bucket) (filename : String) : String :=
  "https://storage.googleapis.com/" ++ b.name ++ "/" ++ filename

/-- Outcomes of the external storage calls: `write` is
`upload_from_string` + `make_public` (error = the exception message), and
`existsAfter` is what `blob.exists()` reports after the write. -/
structure UploadEnv where
  write : Except String Unit
  existsAfter : Bool

def audio_filename (story_id : String) (scene_number : ℕ) : String :=
  "stories/" ++ story_id ++ "/audio/scene_" ++ toString scene_number
    ++ "." ++ settings_audio_format

def grayscale_filename (story_id : String) (scene_number : ℕ) : String :=
  "stories/" ++ story_id ++ "/images/scene_" ++ toString scene_number ++ "_grayscale.jpg"

/-- Translation of `StorageService.upload_audio`.  Note: there is no
minimum-size validation here, unlike the image uploads. -/
def upload_audio (bucket : Option Bucket) (env : UploadEnv) (audio_data : Bytes)
    (story_id : String) (scene_number : ℕ) : Except HTTPError (String × Bucket) :=
  match bucket with
  | none => .error ⟨503, "Firebase Storage not available"⟩
  | some b =>
      match env.write with
      | .error e =>
          .error ⟨500, "Audio upload failed for scene " ++ toString scene_number
            ++ ": " ++ e⟩
      | .ok _ =>
          let b' := b.insertBlob (audio_filename story_id scene_number)
            ⟨audio_data, "audio/" ++ settings_audio_format, true⟩
          if env.existsAfter then
            .ok (public_url b (audio_filename story_id scene_number), b')
          else
            .error ⟨500, "Audio upload failed for scene " ++ toString scene_number
              ++ ": Upload completed but file verification failed"⟩

/-- Translation of `StorageService.upload_image_data` (the grayscale image
upload), including its `len(image_data) < 1000` corruption guard. -/
def upload_image_data (bucket : Option Bucket) (env : UploadEnv) (image_data : Bytes)
    (story_id : String) (scene_number : ℕ) : Except HTTPError (String × Bucket) :=
  match bucket with
  | none => .error ⟨503, "Firebase Storage not available"⟩
  | some b =>
      if image_data.length < 1000 then
        .error ⟨500, "Grayscale image upload failed for scene " ++ toString scene_number
          ++ ": Image data too small: " ++ toString image_data.length ++ " bytes"⟩
      else
        match env.write with
        | .error e =>
            .error ⟨500, "Grayscale image upload failed for scene " ++ toString scene_number
              ++ ": " ++ e⟩
        | .ok _ =>
            let b' := b.insertBlob (grayscale_filename story_id scene_number)
              ⟨image_data, "image/jpeg", true⟩
            if env.existsAfter then
              .ok (public_url b (grayscale_filename story_id scene_number), b')
            else
              .error ⟨500, "Grayscale image upload failed for scene " ++ toString scene_number
                ++ ": Upload completed but file verification failed"⟩

/-- URL component of an upload result. -/
def uploadResultURL : Except HTTPError (String × Bucket) → Option String
  | .ok (u, _) => some u
  | .error _ => none

/-- Stored blob at `filename` in the bucket an upload returned. -/
def uploadResultBlob (r : Except HTTPError (String × Bucket)) (filename : String) :
    Option Blob :=
  match r with
  | .ok (_, b) => b.blobs filename
  | .error _ => none

/-- A concrete bucket with no objects, for counterexamples. -/
def emptyBucket : Bucket := { name := "test-bucket", blobs := fun _ => none }

/-- An upload environment whose external write succeeds and whose
post-write existence check passes. -/
def healthyUploadEnv : UploadEnv := { write := .ok (), existsAfter := true }

/-- C7 counterexample: a 3-byte audio payload is NOT rejected — the audio
upload stores it and returns its public URL, so not every media upload
operation enforces the minimum plausible size. -/
theorem upload_audio_accepts_tiny_payload :
    uploadResultURL (upload_audio (some emptyBucket) healthyUploadEnv [1, 2, 3] "s1" 1)
      = some "https://storage.googleapis.com/test-bucket/stories/s1/audio/scene_1.wav"
    ∧ uploadResultBlob (upload_audio (some emptyBucket) healthyUploadEnv [1, 2, 3] "s1" 1)
        "stories/s1/audio/scene_1.wav"
      = some ⟨[1, 2, 3], "audio/wav", true⟩ := by
  constructor <;> rfl

/-- C7 amended: the image upload rejects payloads under 1000 bytes with a
typed 500 error naming the scene before anything is stored; the audio
upload has no such guard; both make the stored object public, return the
public URL only when the post-write existence check passes, report a
verification failure otherwise, and wrap any write failure in a typed
error carrying the scene number. -/
theorem upload_guards_and_verification :
    (∀ (b : Bucket) (env : UploadEnv) (data : Bytes) (sid : String) (n : ℕ),
      data.length < 1000 →
      upload_image_data (some b) env data sid n
        = .error ⟨500, "Grayscale image upload failed for scene " ++ toString n
            ++ ": Image data too small: " ++ toString data.length ++ " bytes"⟩)
    ∧ (∀ (b : Bucket) (env : UploadEnv) (data : Bytes) (sid : String) (n : ℕ) (e : String),
      env.write = .error e →
      upload_audio (some b) env data sid n
        = .error ⟨500, "Audio upload failed for scene " ++ toString n ++ ": " ++ e⟩)
    ∧ (∀ (b : Bucket) (env : UploadEnv) (data : Bytes) (sid : String) (n : ℕ),
      env.write = .ok () → env.existsAfter = true →
      upload_audio (some b) env data sid n
        = .ok (public_url b (audio_filename sid n),
            b.insertBlob (audio_filename sid n) ⟨data, "audio/wav", true⟩))
    ∧ (∀ (b : Bucket) (env : UploadEnv) (data : Bytes) (sid : String) (n : ℕ),
      1000 ≤ data.length → env.write = .ok () → env.existsAfter = true →
      upload_image_data (some b) env data sid n
        = .ok (public_url b (grayscale_filename sid n),
            b.insertBlob (grayscale_filename sid n) ⟨data, "image/jpeg", true⟩))
    ∧ (∀ (b : Bucket) (env : UploadEnv) (data : Bytes) (sid : String) (n : ℕ),
      env.write = .ok () → env.existsAfter = false →
      upload_audio (some b) env data sid n
        = .error ⟨500, "Audio upload failed for scene " ++ toString n
            ++ ": Upload completed but file verification failed"⟩) := by
  refine ⟨?_, ?_, ?_, ?_, ?_⟩
  · intro b env data sid n h
    simp [upload_image_data, h]
  · intro b env data sid n e h
    simp [upload_audio, h]
  · intro b env data sid n hw he
    simp [upload_audio, hw, he, settings_audio_format]
  · intro b env data sid n hlen hw he
    simp [upload_image_data, Nat.not_lt.mpr hlen, hw, he]
  · intro b env data sid n hw he
    simp [upload_audio, hw, he]

/-- Witness for `upload_guards_and_verification` at concrete payloads. -/
theorem upload_guards_and_verification_witness :
    upload_image_data (some emptyBucket) healthyUploadEnv [1, 2, 3] "s1" 2
      = .error ⟨500, "Grayscale image upload failed for scene 2: Image data too small: 3 bytes"⟩
    ∧ upload_audio (some emptyBucket) ⟨.error "boom", true⟩ [1, 2, 3] "s1" 3
      = .error ⟨500, "Audio upload failed for scene 3: boom"⟩
    ∧ upload_audio (some emptyBucket) healthyUploadEnv [1, 2, 3] "s1" 4
      = .ok (public_url emptyBucket (audio_filename "s1" 4),
          emptyBucket.insertBlob (audio_filename "s1" 4) ⟨[1, 2, 3], "audio/wav", true⟩) := by
  refine ⟨?_, ?_, ?_⟩
  · have h := upload_guards_and_verification.1 emptyBucket healthyUploadEnv [1, 2, 3] "s1" 2
      (by decide)
    rw [h]
    rfl
  · exact upload_guards_and_verification.2.1 emptyBucket ⟨.error "boom", true⟩ [1, 2, 3]
      "s1" 3 "boom" rfl
  · exact upload_guards_and_verification.2.2.1 emptyBucket healthyUploadEnv [1, 2, 3]
      "s1" 4 rfl rfl

/-! ## app/services/storage_service.py — Firestore documents

Firestore is modelled as two functional maps: the `stories` collection and
the `users` collection.  `save_story_metadata` writes the story document
(top-level `status` is `manifest.get('status', 'completed')`; no top-level
`error` key is ever written) and then read-modify-writes the user document:
the story id is appended to `story_ids` only if absent, and `story_count`
is set to the length of the updated array. -/

structure Manifest where
  status : Option String
  error : Option String
  title : String
deriving Repr, DecidableEq

structure StoryDoc where
  story_id : String
  user_id : String
  title : String
  user_prompt : String
  status : String
  error : Option String
  manifest : Manifest
  story_number : ℕ
deriving Repr, DecidableEq

structure UserDoc where
  story_ids : List String
  story_count : ℕ
deriving Repr, DecidableEq

structure Firestore where
  stories : String → Option StoryDoc
  users : String → Option UserDoc

/-- The user's `story_ids` array (empty when the user document is absent,
matching the `existing_story_ids = []` default). -/
def userIds (fs : Firestore) (uid : String) : List String :=
  match fs.users uid with
  | some u => u.story_ids
  | none => []

/-- The user's `story_count` field. -/
def userCount (fs : Firestore) (uid : String) : ℕ :=
  match fs.users uid with
  | some u => u.story_count
  | none => 0

/-- The `story_ids` update of `save_story_metadata`: append only when the
id is not already present. -/
def updateStoryIds (ids : List String) (story_id : String) : List String :=
  if story_id ∈ ids then ids else ids ++ [story_id]

/-- Translation of `StorageService.save_story_metadata`: upsert the story
document, then update the user document's `story_ids` / `story_count`. -/
def save_story_metadata (fs : Firestore) (story_id user_id title prompt : String)
    (manifest : Manifest) : Firestore :=
  let existing_story_ids := userIds fs user_id
  let updated_story_ids := updateStoryIds existing_story_ids story_id
  let new_story_count := updated_story_ids.length
  let story_doc : StoryDoc :=
    { story_id := story_id
      user_id := user_id
      title := title
      user_prompt := prompt
      status := manifest.status.getD "completed"
      error := none
      manifest := manifest
      story_number := new_story_count }
  { stories := fun k => if k = story_id then some story_doc else fs.stories k
    users := fun k => if k = user_id then some ⟨updated_story_ids, new_story_count⟩
      else fs.users k }

/-- Translation of `StorageService.update_story_status_and_title`
(a Firestore `update` on a missing document raises, which the method's
`except` swallows, so it is a no-op then). -/
def update_story_status_and_title (fs : Firestore) (story_id status : String)
    (title : Option String) : Firestore :=
  match fs.stories story_id with
  | none => fs
  | some d =>
      { fs with
        stories := fun k =>
          if k = story_id then
            some { d with status := status, title := title.getD d.title }
          else fs.stories k }

/-- Translation of `StorageService.get_story_details` (no `user_id`
given): the document, or `HTTPException(404, ...)` when absent. -/
def get_story_details (fs : Firestore) (story_id : String) : Except HTTPError StoryDoc :=
  match fs.stories story_id with
  | some d => .ok d
  | none => .error ⟨404, "Story not found or access denied"⟩

structure FetchResponse where
  success : Bool
  status : Option String
  message : String
deriving Repr, DecidableEq

/-- Translation of the `/stories/fetch/{story_id}` handler
(app/routers/stories.py): `get_story_details` raising (404 when missing,
via `str(e) = "{code}: {detail}"`) is caught by the handler's blanket
`except`, producing the `status: "error"` envelope; the explicit
`not_found` branch is dead code because `get_story_details` never returns
a falsy value. -/
def fetch_story_status (fs : Firestore) (story_id : String) : FetchResponse :=
  match get_story_details fs story_id with
  | .error e =>
      { success := false
        status := some "error"
        message := "Error fetching story: " ++ toString e.status_code ++ ": " ++ e.detail }
  | .ok d =>
      if d.status = "completed" then
        { success := true
          status := none
          message := "Story " ++ d.manifest.title ++ " generated successfully!" }
      else if d.status = "failed" then
        { success := false
          status := some "failed"
          message := "Story generation failed: " ++ (d.error.getD "Unknown error") }
      else
        { success := false
          status := some d.status
          message := "Story is still generating... Status: " ++ d.status }

/-- Translation of `StorageService.delete_user_story`: verify the user
document exists, the id is in `story_ids`, the story document exists and
is owned by the user; then delete the story document and write back the
filtered `story_ids` with `story_count = len(updated_story_ids)`. -/
def delete_user_story (fs : Firestore) (story_id user_id : String) : Bool × Firestore :=
  match fs.users user_id with
  | none => (false, fs)
  | some u =>
      if story_id ∈ u.story_ids then
        match fs.stories story_id with
        | none => (false, fs)
        | some sdoc =>
            if sdoc.user_id = user_id then
              let updated_story_ids := u.story_ids.filter (fun sid => sid != story_id)
              (true,
                { stories := fun k => if k = story_id then none else fs.stories k
                  users := fun k => if k = user_id then
                      some ⟨updated_story_ids, updated_story_ids.length⟩
                    else fs.users k })
            else (false, fs)
      else (false, fs)

structure GenerateResponse where
  success : Bool
  story_id : String
  status : String
deriving Repr, DecidableEq

/-- Translation of the `/stories/generate` handler
(`generate_story_async`): build the initial manifest with
`status = "processing"`, persist it via `save_story_metadata`, and only
then return the envelope carrying the story id. -/
def generate_story_async (fs : Firestore) (story_id user_id prompt : String) :
    GenerateResponse × Firestore :=
  let initial_manifest : Manifest :=
    { status := some "processing", error := none, title := "Generating..." }
  let fs' := save_story_metadata fs story_id user_id "Generating..." prompt initial_manifest
  ({ success := true, story_id := story_id, status := "processing" }, fs')

/-- C5: the initial manifest with status `processing` is persisted under
the allocated story id before the handler returns it, so the returned
story id is immediately fetchable through the status endpoint and the
fetched story reports status `processing`. -/
theorem generate_persists_processing_before_return
    (fs : Firestore) (story_id user_id prompt : String) :
    (generate_story_async fs story_id user_id prompt).1.story_id = story_id
    ∧ (generate_story_async fs story_id user_id prompt).1.status = "processing"
    ∧ Option.map (fun d => d.status)
        ((generate_story_async fs story_id user_id prompt).2.stories story_id)
        = some "processing"
    ∧ (fetch_story_status (generate_story_async fs story_id user_id prompt).2 story_id).status
        = some "processing"
    ∧ (fetch_story_status (generate_story_async fs story_id user_id prompt).2 story_id).success
        = false := by
  refine ⟨rfl, rfl, ?_, ?_, ?_⟩
  · simp [generate_story_async, save_story_metadata]
  · simp [generate_story_async, save_story_metadata, fetch_story_status, get_story_details]
  · simp [generate_story_async, save_story_metadata, fetch_story_status, get_story_details]

/-! ## app/routers/stories.py — status lifecycle (C2)

`generate_story_background` runs inside one `try`: user-profile fetch and
scene generation can raise before `update_story_status_and_title(story_id,
"generating_media", title)`; the media/upload phase can raise after it; on
success it ends with `save_story_metadata` of a `status: "completed"`
manifest.  The `except` block writes a `status: "failed"` manifest whose
`error` field is `str(e)`.  `update_story_status_and_title` and
`save_story_metadata` both swallow their own exceptions, so no status
write can itself abort the run, and nothing runs after the terminal
write.  `storyRunWrites` lists, in order, the `(status, error)` pairs one
request writes for its story id, starting with the handler's initial
`processing` write. -/

inductive BgOutcome where
  | textGenFails (msg : String)
  | mediaFails (msg : String)
  | success

/-- Status writes performed by `generate_story_background`. -/
def generate_story_background_writes : BgOutcome → List (String × Option String)
  | .textGenFails m => [("failed", some m)]
  | .mediaFails m => [("generating_media", none), ("failed", some m)]
  | .success => [("generating_media", none), ("completed", none)]

/-- All status writes of one story-generation run, beginning with the
handler's `processing` write. -/
def storyRunWrites (o : BgOutcome) : List (String × Option String) :=
  ("processing", none) :: generate_story_background_writes o

/-- The transitions the specification allows. -/
def statusStep (a b : String) : Bool :=
  (a == "processing" && (b == "generating_media" || b == "failed"))
    || (a == "generating_media" && (b == "completed" || b == "failed"))

def isTerminalStatus (s : String) : Bool :=
  s == "completed" || s == "failed"

/-- Every adjacent pair of writes is an allowed transition. -/
def chainOK : List (String × Option String) → Bool
  | [] => true
  | [_] => true
  | a :: b :: rest => statusStep a.1 b.1 && chainOK (b :: rest)

/-- A terminal status is written exactly once, as the last write. -/
def terminalOnlyLast : List (String × Option String) → Bool
  | [] => true
  | [p] => isTerminalStatus p.1
  | p :: rest => !isTerminalStatus p.1 && terminalOnlyLast rest

/-- Every `failed` write carries an error message. -/
def failedHasError : List (String × Option String) → Bool
  | [] => true
  | p :: rest => (if p.1 == "failed" then p.2.isSome else true) && failedHasError rest

/-- C2: each run's status writes start at `processing`, follow only the
order processing → generating_media → completed, or drop to `failed` (with
a human-readable error), and end at a terminal status that is written last
— after `completed` or `failed` the run performs no further transition. -/
theorem story_status_lifecycle (o : BgOutcome) :
    (storyRunWrites o).head? = some ("processing", none)
    ∧ chainOK (storyRunWrites o) = true
    ∧ terminalOnlyLast (storyRunWrites o) = true
    ∧ failedHasError (storyRunWrites o) = true := by
  cases o <;> exact ⟨rfl, rfl, rfl, rfl⟩

/-! ## C4 — idempotence of the user story-index update -/

/-- `save_story_metadata` iterated `n` times with the same arguments. -/
def saveN (story_id user_id title prompt : String) (m : Manifest) :
    ℕ → Firestore → Firestore
  | 0, fs => fs
  | n + 1, fs =>
      saveN story_id user_id title prompt m n
        (save_story_metadata fs story_id user_id title prompt m)

theorem updateStoryIds_mem (ids : List String) (sid : String) :
    sid ∈ updateStoryIds ids sid := by
  unfold updateStoryIds
  split
  · assumption
  · simp

theorem updateStoryIds_of_mem (ids : List String) (sid : String) (h : sid ∈ ids) :
    updateStoryIds ids sid = ids := by
  simp [updateStoryIds, h]

theorem updateStoryIds_idem (ids : List String) (sid : String) :
    updateStoryIds (updateStoryIds ids sid) sid = updateStoryIds ids sid :=
  updateStoryIds_of_mem _ _ (updateStoryIds_mem ids sid)

theorem updateStoryIds_nodup (ids : List String) (sid : String) (h : ids.Nodup) :
    (updateStoryIds ids sid).Nodup := by
  unfold updateStoryIds
  split
  · exact h
  · next hmem => simp [List.nodup_append, h, hmem]

theorem userIds_save (fs : Firestore) (sid uid t p : String) (m : Manifest) :
    userIds (save_story_metadata fs sid uid t p m) uid
      = updateStoryIds (userIds fs uid) sid := by
  simp [save_story_metadata, userIds]

theorem userCount_save (fs : Firestore) (sid uid t p : String) (m : Manifest) :
    userCount (save_story_metadata fs sid uid t p m) uid
      = (updateStoryIds (userIds fs uid) sid).length := by
  simp [save_story_metadata, userCount, userIds]

theorem userIds_saveN (fs : Firestore) (sid uid t p : String) (m : Manifest) (n : ℕ) :
    userIds (saveN sid uid t p m (n + 1) fs) uid
      = updateStoryIds (userIds fs uid) sid := by
  induction n generalizing fs with
  | zero => simpa [saveN] using userIds_save fs sid uid t p m
  | succ k ih =>
      have hstep : saveN sid uid t p m (k + 2) fs
          = saveN sid uid t p m (k + 1) (save_story_metadata fs sid uid t p m) := rfl
      rw [hstep, ih, userIds_save, updateStoryIds_idem]

theorem userCount_saveN (fs : Firestore) (sid uid t p : String) (m : Manifest) (n : ℕ) :
    userCount (saveN sid uid t p m (n + 1) fs) uid
      = (updateStoryIds (userIds fs uid) sid).length := by
  induction n generalizing fs with
  | zero => simpa [saveN] using userCount_save fs sid uid t p m
  | succ k ih =>
      have hstep : saveN sid uid t p m (k + 2) fs
          = saveN sid uid t p m (k + 1) (save_story_metadata fs sid uid t p m) := rfl
      rw [hstep, ih, userIds_save, updateStoryIds_idem]

/-- C4: starting from a duplicate-free `story_ids` array, saving the same
story id any positive number of times leaves it appearing exactly once,
keeps the array duplicate-free, keeps `story_count` equal to the number of
distinct ids, and a further save does not change the array. -/
theorem user_index_update_idempotent (fs : Firestore) (sid uid t p : String)
    (m : Manifest) (n : ℕ) (h : (userIds fs uid).Nodup) :
    (userIds (saveN sid uid t p m (n + 1) fs) uid).count sid = 1
    ∧ (userIds (saveN sid uid t p m (n + 1) fs) uid).Nodup
    ∧ userCount (saveN sid uid t p m (n + 1) fs) uid
        = (userIds (saveN sid uid t p m (n + 1) fs) uid).dedup.length
    ∧ userIds (save_story_metadata (saveN sid uid t p m (n + 1) fs) sid uid t p m) uid
        = userIds (saveN sid uid t p m (n + 1) fs) uid := by
  have hids := userIds_saveN fs sid uid t p m n
  have hnodup : (userIds (saveN sid uid t p m (n + 1) fs) uid).Nodup := by
    rw [hids]; exact updateStoryIds_nodup _ _ h
  refine ⟨?_, hnodup, ?_, ?_⟩
  · rw [hids]
    exact List.count_eq_one_of_mem (updateStoryIds_nodup _ _ h) (updateStoryIds_mem _ _)
  · rw [userCount_saveN fs sid uid t p m n, List.dedup_eq_self.mpr hnodup, hids]
  · rw [userIds_save, hids, updateStoryIds_idem]

/-- A manifest used by concrete-store witnesses. -/
def demoManifest : Manifest :=
  { status := some "completed", error := none, title := "Demo" }

/-- The empty Firestore. -/
def emptyFS : Firestore := { stories := fun _ => none, users := fun _ => none }

/-- Witness for `user_index_update_idempotent`: two saves of the same story
id into an empty store leave it listed exactly once. -/
theorem user_index_update_idempotent_witness :
    (userIds (saveN "s1" "u1" "T" "p" demoManifest 2 emptyFS) "u1").count "s1" = 1
    ∧ userCount (saveN "s1" "u1" "T" "p" demoManifest 2 emptyFS) "u1"
        = (userIds (saveN "s1" "u1" "T" "p" demoManifest 2 emptyFS) "u1").dedup.length := by
  have h := user_index_update_idempotent emptyFS "s1" "u1" "T" "p" demoManifest 1
    (by simp [userIds, emptyFS])
  exact ⟨h.1, h.2.2.1⟩

/-! ## C6 — story deletion -/

/-- C6: when `delete_user_story` reports success, the story document is
gone from the story collection, the id no longer appears in the owner's
`story_ids`, `story_count` equals the new array length, and a subsequent
fetch of the id reports not-found (`HTTPException(404, ...)` from
`get_story_details`, surfaced by the polling endpoint as an unsuccessful
envelope). -/
theorem delete_story_removes_everywhere (fs : Firestore) (story_id user_id : String)
    (h : (delete_user_story fs story_id user_id).1 = true) :
    (delete_user_story fs story_id user_id).2.stories story_id = none
    ∧ story_id ∉ userIds (delete_user_story fs story_id user_id).2 user_id
    ∧ userCount (delete_user_story fs story_id user_id).2 user_id
        = (userIds (delete_user_story fs story_id user_id).2 user_id).length
    ∧ get_story_details (delete_user_story fs story_id user_id).2 story_id
        = .error ⟨404, "Story not found or access denied"⟩
    ∧ (fetch_story_status (delete_user_story fs story_id user_id).2 story_id).success
        = false := by
  cases hu : fs.users user_id with
  | none => simp [delete_user_story, hu] at h
  | some u =>
      by_cases hmem : story_id ∈ u.story_ids
      · cases hs : fs.stories story_id with
        | none => simp [delete_user_story, hu, hmem, hs] at h
        | some sdoc =>
            by_cases hown : sdoc.user_id = user_id
            · refine ⟨?_, ?_, ?_, ?_, ?_⟩ <;>
                simp [delete_user_story, hu, hmem, hs, hown, userIds, userCount,
                  get_story_details, fetch_story_status, List.mem_filter]
            · simp [delete_user_story, hu, hmem, hs, hown] at h
      · simp [delete_user_story, hu, hmem] at h

/-- A user owning one story, for the deletion witness. -/
def demoFS : Firestore :=
  { stories := fun k =>
      if k = "s1" then
        some { story_id := "s1", user_id := "u1", title := "T", user_prompt := "p"
               status := "completed", error := none, manifest := demoManifest
               story_number := 1 }
      else none
    users := fun k => if k = "u1" then some ⟨["s1"], 1⟩ else none }

/-- Witness for `delete_story_removes_everywhere` on a concrete store. -/
theorem delete_story_removes_everywhere_witness :
    (delete_user_story demoFS "s1" "u1").2.stories "s1" = none
    ∧ get_story_details (delete_user_story demoFS "s1" "u1").2 "s1"
        = .error ⟨404, "Story not found or access denied"⟩ := by
  have h := delete_story_removes_everywhere demoFS "s1" "u1" (by decide)
  exact ⟨h.1, h.2.2.2.1⟩

/-! ## app/services/media_service.py, `convert_image_to_grayscale_and_resize`

The whole body sits in one `try`: `Image.open` decodes the bytes, `resize`
goes to the target size with LANCZOS, `convert('L')` makes it grayscale,
a compatibility branch converts `RGBA`/`LA`/`P` modes to `RGB` (dead after
`convert('L')`), and `save(format='JPEG')` re-encodes; the `except` returns
the original `image_data` unchanged.  PIL is external, so decoding and
encoding are supplied by a `PILEnv` whose `none` outcomes model the raised
exceptions; `resize` and `convert` act on the image header. -/

structure PILImage where
  width : ℕ
  height : ℕ
  mode : String
deriving Repr, DecidableEq

structure PILEnv where
  decode : Bytes → Option PILImage
  encodeJPEG : PILImage → Option Bytes

def pilResize (img : PILImage) (target : ℕ × ℕ) : PILImage :=
  { img with width := target.1, height := target.2 }

def pilConvert (img : PILImage) (mode : String) : PILImage :=
  { img with mode := mode }

/-- The `if ... in ('RGBA', 'LA', 'P')` JPEG-compatibility test. -/
def modeNeedsRGB (m : String) : Bool :=
  m == "RGBA" || m == "LA" || m == "P"

/-- Translation of `MediaService.convert_image_to_grayscale_and_resize`. -/
def convert_image_to_grayscale_and_resize (env : PILEnv) (image_data : Bytes)
    (target_size : ℕ × ℕ) : Bytes :=
  match env.decode image_data with
  | none => image_data
  | some image =>
      let resized_image := pilResize image target_size
      let grayscale_image := pilConvert resized_image "L"
      let grayscale_image' :=
        if modeNeedsRGB grayscale_image.mode then pilConvert grayscale_image "RGB"
        else grayscale_image
      match env.encodeJPEG grayscale_image' with
      | none => image_data
      | some grayscale_data => grayscale_data

/-- C10: the grayscale-conversion-and-resize operation is total at its
interface: when the bytes decode and the re-encode succeeds it returns the
resized grayscale image re-encoded as JPEG, and when decoding or encoding
fails it returns the original input bytes unchanged — it never raises. -/
theorem grayscale_resize_total (env : PILEnv) (image_data : Bytes) (target : ℕ × ℕ) :
    (env.decode image_data = none →
      convert_image_to_grayscale_and_resize env image_data target = image_data)
    ∧ (∀ img out, env.decode image_data = some img →
      env.encodeJPEG (pilConvert (pilResize img target) "L") = some out →
      convert_image_to_grayscale_and_resize env image_data target = out)
    ∧ (∀ img, env.decode image_data = some img →
      env.encodeJPEG (pilConvert (pilResize img target) "L") = none →
      convert_image_to_grayscale_and_resize env image_data target = image_data) := by
  refine ⟨?_, ?_, ?_⟩
  · intro h
    simp [convert_image_to_grayscale_and_resize, h]
  · intro img out h1 h2
    unfold convert_image_to_grayscale_and_resize
    rw [h1]
    have hmode : modeNeedsRGB (pilConvert (pilResize img target) "L").mode = false := rfl
    simp only [hmode, Bool.false_eq_true, if_false, h2]
  · intro img h1 h2
    unfold convert_image_to_grayscale_and_resize
    rw [h1]
    have hmode : modeNeedsRGB (pilConvert (pilResize img target) "L").mode = false := rfl
    simp only [hmode, Bool.false_eq_true, if_false, h2]

/-- A concrete PIL environment: only `[1, 2, 3]` decodes, and encoding
reports the image header. -/
def demoPILEnv : PILEnv :=
  { decode := fun l => if l = [1, 2, 3] then some ⟨4, 4, "RGB"⟩ else none
    encodeJPEG := fun img => some [img.width, img.height] }

/-- Witness for `grayscale_resize_total`: a decodable input comes back as
the re-encoded resized image, an undecodable one comes back unchanged. -/
theorem grayscale_resize_total_witness :
    convert_image_to_grayscale_and_resize demoPILEnv [1, 2, 3] (2, 2) = [2, 2]
    ∧ convert_image_to_grayscale_and_resize demoPILEnv [9] (2, 2) = [9] :=
  ⟨(grayscale_resize_total demoPILEnv [1, 2, 3] (2, 2)).2.1 ⟨4, 4, "RGB"⟩ [2, 2]
      (by decide) rfl,
   (grayscale_resize_total demoPILEnv [9] (2, 2)).1 (by decide)⟩

end STServer
